import Mathlib

/-!
Verification of the listenbrainz-import submission pipeline.

This file shallowly embeds the data model and the operations of the
repository (src/listenbrainz.py, src/listenbrainz-spotify-import.py,
src/listenbrainz-vimusic-import.py) and proves properties about them.

Python values appearing in the track dictionaries are modelled by `JValue`;
Python dictionaries by association lists with lookup on the first match
(the code never builds a dictionary with duplicate keys).  Machine-level
concerns (TLS, sockets, logging) are not modelled; the HTTP exchange of
`_submit` is modelled by a script of responses, one consumed per request.
-/

namespace ListenBrainzImport

/-- A Python value as stored in a track and in wire payload dictionaries. -/
inductive JValue where
  | str (s : String)
  | int (n : Int)
  | bool (b : Bool)
  | null
  | obj (fields : List (String × JValue))
  | arr (elems : List JValue)

/-- Python truthiness for `JValue`: empty strings, zero, False, None and
empty containers are falsy, exactly as in `if self.release_name:` and
`if self.additional_info:` in `Track.to_dict`. -/
def JValue.truthy : JValue → Bool
  | .str s => !(s == "")
  | .int n => !(n == 0)
  | .bool b => b
  | .null => false
  | .obj fields => !fields.isEmpty
  | .arr elems => !elems.isEmpty

/-- A Python dictionary with string keys, as an association list. -/
abbrev Dict := List (String × JValue)

/-- Lookup of `d[key]` / `d.get(key)`: the first binding of `key`, if any. -/
def Dict.get? : Dict → String → Option JValue
  | [], _ => none
  | (k, v) :: rest, key => if k = key then some v else Dict.get? rest key

/-- The `Track` class of src/listenbrainz.py.  `Track.__init__` stores the
four fields unchanged; `release_name` and `additional_info` default to
`None` (here `JValue.null`).  No field is validated at construction. -/
structure Track where
  artist_name : JValue
  track_name : JValue
  release_name : JValue := JValue.null
  additional_info : JValue := JValue.null

/-- A Python `KeyError`, raised by a `data[key]` lookup on a missing key. -/
inductive DictError where
  | keyError (key : String)

/-- The `Track.from_dict` classmethod: `data["artist_name"]` and
`data["track_name"]` raise `KeyError` when missing (arguments are evaluated
left to right), while `data.get("release_name", None)` and
`data.get("additional_info", None)` default to `None`. -/
def Track.from_dict (data : Dict) : Except DictError Track :=
  match Dict.get? data "artist_name" with
  | none => .error (.keyError "artist_name")
  | some a =>
    match Dict.get? data "track_name" with
    | none => .error (.keyError "track_name")
    | some t =>
      .ok { artist_name := a
            track_name := t
            release_name := (Dict.get? data "release_name").getD .null
            additional_info := (Dict.get? data "additional_info").getD .null }

/-- The `Track.to_dict` method: the mandatory keys `artist_name` and
`track_name` are always written; `release_name` and `additional_info` are
appended only when truthy (`if self.release_name:` and
`if self.additional_info:`), and are passed through unchanged. -/
def Track.to_dict (t : Track) : Dict :=
  let data : Dict := [("artist_name", t.artist_name), ("track_name", t.track_name)]
  let data : Dict :=
    if t.release_name.truthy then data ++ [("release_name", t.release_name)] else data
  if t.additional_info.truthy then data ++ [("additional_info", t.additional_info)] else data

/-- The module-level `_get_payload(track, listened_at)` of src/listenbrainz.py:
one wire entry, with `listened_at` added only when not `None`. -/
def _get_payload (track : Track) (listened_at : Option Int := none) : Dict :=
  let data : Dict := [("track_metadata", .obj track.to_dict)]
  match listened_at with
  | some ts => data ++ [("listened_at", .int ts)]
  | none => data

/-- The module-level `_get_payload_many(tracks)` of src/listenbrainz.py:
one payload entry per `(listened_at, track)` pair, in order. -/
def _get_payload_many (tracks : List (Int × Track)) : List Dict :=
  tracks.map fun p => _get_payload p.2 (some p.1)

/-- An HTTP response as observed by `_submit`: its status code and the
text read from its body.  Rate-limit headers are handled separately by
`handle_ratelimit` below. -/
structure HTTPResponse where
  status : Nat
  text : String

/-- The retry skeleton of `ListenBrainzClient._submit` in src/listenbrainz.py.
The network is modelled by a script of responses, one consumed per issued
request.  Each call sends the payload once; on status 429 with `retry < 5`
it recurses on the same payload with `retry + 1`; every other outcome
(status 200, any other status, or 429 with retries exhausted) returns the
just-received response unchanged.  The result is the list of payloads
sent, in order, paired with the returned response (`none` only when the
script runs out). -/
def submitRun (payload : List Dict) : List HTTPResponse → Nat → List (List Dict) × Option HTTPResponse
  | [], _ => ([payload], none)
  | r :: rest, retry =>
    if r.status = 429 ∧ retry < 5 then
      let next := submitRun payload rest (retry + 1)
      (payload :: next.1, next.2)
    else ([payload], some r)

/-- The update of `ListenBrainzClient._handle_ratelimit`: when the
`X-RateLimit-Remaining` header (default 0) is 0, the next allowed request
time becomes `now + reset_in` where `reset_in` is the
`X-RateLimit-Reset-In` header (default 0); otherwise the stored time is
left unchanged. -/
def handle_ratelimit (next_request_time : Int) (now : Int)
    (remaining : Int) (reset_in : Int) : Int :=
  if remaining = 0 then now + reset_in else next_request_time

/-- The sleep performed by `ListenBrainzClient._wait_for_ratelimit`: when
the stored next request time lies in the future the client sleeps for the
difference, otherwise it proceeds immediately. -/
def wait_for_ratelimit_delay (next_request_time : Int) (now : Int) : Int :=
  if next_request_time > now then next_request_time - now else 0

/-- The `chunks(input_list, chunk_size)` generator defined identically in
src/listenbrainz-spotify-import.py and src/listenbrainz-vimusic-import.py:
successive slices `input_list[index : index + chunk_size]` for `index` in
`range(0, len(input_list), chunk_size)`.  An empty list yields no chunks;
`chunk_size = 0` (a `ValueError` inside `range`) is mapped to no chunks
and never occurs in the code, which always passes 200. -/
def chunks (input_list : List α) (chunk_size : Nat) : List (List α) :=
  if h : chunk_size = 0 ∨ input_list.isEmpty then []
  else
    input_list.take chunk_size :: chunks (input_list.drop chunk_size) chunk_size
termination_by input_list.length
decreasing_by
  simp only [not_or, List.isEmpty_iff] at h
  have hl : 0 < input_list.length := List.length_pos.mpr h.2
  simp only [List.length_drop]
  omega

/-- The sort key comparison used by
`sorted(listens, key=lambda k: k[0], reverse=True)`: listen `a` may come
before listen `b` when the timestamp of `b` is at most that of `a`. -/
def listenDescLE (a b : Int × Track) : Bool := decide (b.1 ≤ a.1)

/-- The ordering stage of `submit_listens` in both importer scripts:
a stable descending sort on the `listened_at` component, as produced by
`sorted(listens, key=lambda k: k[0], reverse=True)`. -/
def sortListens (listens : List (Int × Track)) : List (Int × Track) :=
  listens.mergeSort listenDescLE

/-- The batching stage of `submit_listens`: the sorted listens are split
into consecutive chunks of at most 200, each submitted as one request. -/
def submissionBatches (listens : List (Int × Track)) : List (List (Int × Track)) :=
  chunks (sortListens listens) 200

/-- The method names defined in the class body of `ListenBrainzClient` in
src/listenbrainz.py (attribute lookup on an instance resolves a method
call through this set). -/
def clientMethodNames : List String :=
  ["__init__", "import_tracks", "_submit", "_wait_for_ratelimit", "_handle_ratelimit"]

/-- The attribute named by the call `client.submit_feedback(submission, 1)`
in `submit_feedback` of src/listenbrainz-spotify-import.py. -/
def spotifyFeedbackAttr : String := "submit_feedback"

/-- A source dictionary with an empty artist name and all other fields
present, as an adapter could hand to `Track.from_dict`. -/
def emptyArtistData : Dict :=
  [("artist_name", .str ""), ("track_name", .str "Song"),
   ("release_name", .str "Album"),
   ("additional_info", .obj [("music_service", .str "spotify.com")])]

/-- C1 counterexample: constructing a track from fields whose
`artist_name` is the empty string does not fail with any error; the empty
string is stored unchanged.  The claim that construction fails with
`ValidationError` on an empty `artist_name` is therefore false. -/
theorem from_dict_empty_artist_succeeds :
    Track.from_dict emptyArtistData =
      .ok { artist_name := .str "", track_name := .str "Song",
            release_name := .str "Album",
            additional_info := .obj [("music_service", .str "spotify.com")] } := by
  rfl

/-- C1 amended: construction via `Track.from_dict` succeeds exactly when
the keys `artist_name` and `track_name` are both present in the input
dictionary; the values are not inspected, so empty strings are accepted,
and a missing key raises `KeyError`, the only construction failure. -/
theorem from_dict_ok_iff (data : Dict) :
    (Track.from_dict data).isOk ↔
      (Dict.get? data "artist_name").isSome ∧ (Dict.get? data "track_name").isSome := by
  unfold Track.from_dict
  cases Dict.get? data "artist_name" <;> cases Dict.get? data "track_name" <;>
    simp [Except.isOk, Except.toBool]

/-- A track whose `additional_info` carries a zero duration, exactly what
`process_vimusic_import` builds when `process_track_duration` returns 0. -/
def zeroDurationTrack : Track :=
  { artist_name := .str "Artist", track_name := .str "Song",
    additional_info := .obj [("duration", .int 0)] }

/-- C3 counterexample: the wire payload of `zeroDurationTrack` emits the
key `duration` under `additional_info` even though its value 0 is
zero-equivalent (falsy); no stripping happens inside `additional_info`. -/
theorem to_dict_keeps_falsy_inside_additional_info :
    Dict.get? zeroDurationTrack.to_dict "additional_info" =
        some (.obj [("duration", .int 0)]) ∧
      (JValue.int 0).truthy = false := by
  exact ⟨rfl, rfl⟩

/-- C3 amended: `to_dict` drops the `additional_info` key wholesale when
the whole mapping is falsy (empty or `None`); when it is truthy the
mapping is transmitted unchanged, with no per-entry stripping of falsy
values. -/
theorem to_dict_additional_info_passthrough (t : Track) :
    Dict.get? t.to_dict "additional_info" =
      (if t.additional_info.truthy then some t.additional_info else none) := by
  unfold Track.to_dict
  cases h1 : t.release_name.truthy <;> cases h2 : t.additional_info.truthy <;>
    simp [Dict.get?, h1, h2]

/-- C10: the mandatory keys `artist_name` and `track_name` are always
present in the wire payload; `release_name` is present exactly when
truthy, so an empty string (falsy, as witnessed by the last conjunct) is
omitted just like `None`; the same truthiness test governs whether
`additional_info` is emitted at all, so an empty mapping is dropped
wholesale. -/
theorem to_dict_optional_keys (t : Track) :
    Dict.get? t.to_dict "artist_name" = some t.artist_name ∧
      Dict.get? t.to_dict "track_name" = some t.track_name ∧
      Dict.get? t.to_dict "release_name" =
        (if t.release_name.truthy then some t.release_name else none) ∧
      Dict.get? t.to_dict "additional_info" =
        (if t.additional_info.truthy then some t.additional_info else none) ∧
      (JValue.str "").truthy = false ∧
      (JValue.obj []).truthy = false := by
  unfold Track.to_dict
  cases h1 : t.release_name.truthy <;> cases h2 : t.additional_info.truthy <;>
    simp [Dict.get?, h1, h2, JValue.truthy]

/-- C9: reconstructing a track from its own wire payload succeeds and is
lossless for the non-optional fields: the reconstructed `artist_name` and
`track_name` equal the originals. -/
theorem from_dict_to_dict_roundtrip (t : Track) :
    ∃ t' : Track, Track.from_dict t.to_dict = .ok t' ∧
      t'.artist_name = t.artist_name ∧ t'.track_name = t.track_name := by
  unfold Track.from_dict Track.to_dict
  cases h1 : t.release_name.truthy <;> cases h2 : t.additional_info.truthy <;>
    simp [Dict.get?, h1, h2]

/-- Helper for the retry bound: after any run of 429 responses that
exhausts the remaining retries, the next response is returned as-is and
one request was issued per consumed response. -/
theorem submitRun_429_run (payload : List Dict) :
    ∀ (run : List HTTPResponse) (retry : Nat),
      (∀ r ∈ run, r.status = 429) → run.length + retry = 5 →
      ∀ (last : HTTPResponse) (rest : List HTTPResponse),
        submitRun payload (run ++ last :: rest) retry =
          (List.replicate (run.length + 1) payload, some last) := by
  intro run
  induction run with
  | nil =>
    intro retry _ hlen last rest
    simp only [List.length_nil] at hlen
    have h5 : retry = 5 := by omega
    subst h5
    simp [submitRun]
  | cons r tl ih =>
    intro retry hall hlen last rest
    have hr : r.status = 429 := hall r (by simp)
    have htl : ∀ x ∈ tl, x.status = 429 := fun x hx => hall x (by simp [hx])
    simp only [List.length_cons] at hlen
    have hlt : retry < 5 := by omega
    have hrec := ih (retry + 1) htl (by omega) last rest
    simp only [List.cons_append, submitRun, hr, hlt, and_self, if_pos,
      List.append_eq, hrec, List.length_cons, List.replicate_succ]

/-- C2: with five consecutive 429 responses followed by any sixth
response, `_submit` issues exactly six requests, all with the identical
payload, and returns the sixth response: success when it is a 200, and
the sixth 429 as a failure when it is another 429, never issuing a
seventh request whatever responses follow. -/
theorem submit_retries_429_five_times (payload : List Dict)
    (five : List HTTPResponse) (sixth : HTTPResponse) (rest : List HTTPResponse)
    (hlen : five.length = 5) (h429 : ∀ r ∈ five, r.status = 429) :
    submitRun payload (five ++ sixth :: rest) 0 =
      (List.replicate 6 payload, some sixth) := by
  have h := submitRun_429_run payload five 0 h429 (by omega) sixth rest
  rw [hlen] at h
  exact h

/-- Closed instance of the C2 theorem: five 429 responses, then a 200,
with a further response in the script that is never consumed. -/
theorem submit_retries_429_five_times_witness :
    submitRun []
        ([⟨429, ""⟩, ⟨429, ""⟩, ⟨429, ""⟩, ⟨429, ""⟩, ⟨429, ""⟩] ++
          ⟨200, "ok"⟩ :: [⟨500, ""⟩]) 0 =
      (List.replicate 6 [], some ⟨200, "ok"⟩) :=
  submit_retries_429_five_times []
    [⟨429, ""⟩, ⟨429, ""⟩, ⟨429, ""⟩, ⟨429, ""⟩, ⟨429, ""⟩] ⟨200, "ok"⟩
    [⟨500, ""⟩] rfl (by intro r hr; simp at hr; simp [hr])

/-- C8: a first response whose status is neither 200 nor 429 causes no
retry: exactly one request is issued and the response object is returned
to the caller unchanged. -/
theorem submit_returns_other_status_asis (payload : List Dict)
    (r : HTTPResponse) (rest : List HTTPResponse)
    (h200 : r.status ≠ 200) (h429 : r.status ≠ 429) :
    submitRun payload (r :: rest) 0 = ([payload], some r) := by
  simp [submitRun, h429]

/-- Closed instance of the C8 theorem at a 503 response. -/
theorem submit_returns_other_status_asis_witness :
    submitRun [] (⟨503, "unavailable"⟩ :: [⟨200, ""⟩]) 0 =
      ([[]], some ⟨503, "unavailable"⟩) :=
  submit_returns_other_status_asis [] ⟨503, "unavailable"⟩ [⟨200, ""⟩]
    (by simp) (by simp)

/-- C7: after a response whose remaining-quota header is 0 and whose
reset-in header is 30 is handled at time `now`, a request attempted
immediately afterwards sleeps for exactly 30 seconds; in general the
client sleeps for `next - now` whenever the stored next allowed request
time `next` is in the future. -/
theorem ratelimit_wait_after_exhaustion (st now next : Int) :
    wait_for_ratelimit_delay (handle_ratelimit st now 0 30) now = 30 ∧
      (next > now → wait_for_ratelimit_delay next now = next - now) := by
  unfold wait_for_ratelimit_delay handle_ratelimit
  constructor
  · simp
  · intro h
    simp [h]

/-- Closed instance of the C7 theorem: a quota exhausted at time 100 with
a 30 second reset delays the next request by 30 seconds, as does a stored
next request time of 130 at time 100. -/
theorem ratelimit_wait_after_exhaustion_witness :
    wait_for_ratelimit_delay (handle_ratelimit 0 100 0 30) 100 = 30 ∧
      wait_for_ratelimit_delay 130 100 = 130 - 100 :=
  ⟨(ratelimit_wait_after_exhaustion 0 100 130).1,
   (ratelimit_wait_after_exhaustion 0 100 130).2 (by decide)⟩

/-- Helper: for a positive chunk size, concatenating the chunks gives
back the input list, so chunking is a contiguous partition. -/
theorem chunks_flatten (l : List α) (n : Nat) : 0 < n → (chunks l n).flatten = l := by
  induction l, n using chunks.induct with
  | case1 l n h =>
    intro hn
    rw [chunks, dif_pos h]
    have he : l = [] := by
      rcases h with h | h
      · omega
      · exact List.isEmpty_iff.mp h
    simp [he]
  | case2 l n h ih =>
    intro hn
    rw [chunks, dif_neg h]
    simp only [List.flatten_cons, ih hn]
    exact List.take_append_drop n l

/-- Helper: the number of chunks of size 200 is the length divided by
200, rounded up. -/
theorem chunks_length_of_200 (l : List α) (n : Nat) :
    n = 200 → (chunks l n).length = (l.length + 199) / 200 := by
  induction l, n using chunks.induct with
  | case1 l n h =>
    intro hn
    subst hn
    rw [chunks, dif_pos h]
    have he : l = [] := by
      rcases h with h | h
      · omega
      · exact List.isEmpty_iff.mp h
    simp [he]
  | case2 l n h ih =>
    intro hn
    subst hn
    rw [chunks, dif_neg h]
    have hne : l ≠ [] := by
      simp only [not_or, List.isEmpty_iff] at h
      exact h.2
    have hpos : 0 < l.length := List.length_pos.mpr hne
    simp only [List.length_cons, ih rfl, List.length_drop]
    omega

/-- C5: the batching stage produces exactly the ceiling of N over 200
batches, whose concatenation is exactly the sorted listen list, so the
batches partition it contiguously with no listen duplicated or dropped;
an empty input yields zero batches. -/
theorem submission_batching (listens : List (Int × Track)) :
    (submissionBatches listens).length = (listens.length + 199) / 200 ∧
      (submissionBatches listens).flatten = sortListens listens ∧
      submissionBatches ([] : List (Int × Track)) = [] := by
  refine ⟨?_, ?_, ?_⟩
  · rw [submissionBatches, chunks_length_of_200 _ _ rfl]
    simp [sortListens]
  · exact chunks_flatten _ 200 (by omega)
  · simp [submissionBatches, sortListens, chunks]

/-- C6: the ordering stage is a stable descending sort: the output
timestamps are non-increasing, and any two listens appearing in the input
with equal timestamps keep their relative order in the output. -/
theorem sort_desc_stable (listens : List (Int × Track)) :
    (sortListens listens).Pairwise (fun a b => b.1 ≤ a.1) ∧
      ∀ a b : Int × Track, List.Sublist [a, b] listens → a.1 = b.1 →
        List.Sublist [a, b] (sortListens listens) := by
  have htrans : ∀ x y z : Int × Track,
      listenDescLE x y → listenDescLE y z → listenDescLE x z := by
    intro x y z
    simp only [listenDescLE, decide_eq_true_eq]
    omega
  have htotal : ∀ x y : Int × Track, (listenDescLE x y || listenDescLE y x) = true := by
    intro x y
    simp only [listenDescLE, Bool.or_eq_true, decide_eq_true_eq]
    omega
  unfold sortListens
  constructor
  · have h := List.sorted_mergeSort htrans htotal listens
    refine h.imp ?_
    intro x y hxy
    simpa [listenDescLE] using hxy
  · intro a b hsub heq
    have hp : List.Pairwise (fun x y => listenDescLE x y = true) [a, b] := by
      simp [listenDescLE]
      omega
    exact List.sublist_mergeSort htrans htotal hp hsub

/-- Two tracks used for the stability witness. -/
def trackA : Track := { artist_name := .str "A", track_name := .str "one" }

/-- Second track for the stability witness. -/
def trackB : Track := { artist_name := .str "B", track_name := .str "two" }

/-- Closed instance of the C6 theorem: two listens with the same
timestamp keep their input order through the sort. -/
theorem sort_desc_stable_witness :
    List.Sublist [((5 : Int), trackA), (5, trackB)]
      (sortListens [((5 : Int), trackA), (5, trackB)]) :=
  (sort_desc_stable [((5 : Int), trackA), (5, trackB)]).2
    (5, trackA) (5, trackB) (List.Sublist.refl _) rfl

/-- C4: the attribute named by the call `client.submit_feedback(...)` in
the spotify importer is not among the methods defined on
`ListenBrainzClient`, so the one-at-a-time feedback submission described
by the specification raises `AttributeError` instead of issuing a wire
request. -/
theorem client_lacks_submit_feedback :
    clientMethodNames.contains spotifyFeedbackAttr = false := by
  decide

end ListenBrainzImport
